import Mathlib

/-!
Shallow embedding of the core data model and operations of the Bine
social book-review application (`src/bine/models.py` and
`src/bine/bine/serializers.py`).

Database tables are embedded as Lean lists of records; Django ORM
queries become list filters/maps; `order_by('-field')` becomes a
descending insertion sort on a `Nat` key; Python exceptions become
`Except String`.  Functions provided by the web framework or by files
of the repository that are not under `src/` are modelled from the
specification and carry a doc comment saying so.
-/

namespace Bine

/-! ### Generic descending sort on a `Nat` key (models `order_by('-field')`) -/

/-- Insert `x` into `l`, keeping `l` sorted by `key` in descending order. -/
def insertDesc (key : α → Nat) (x : α) : List α → List α
  | [] => [x]
  | y :: ys => if key x ≤ key y then y :: insertDesc key x ys else x :: y :: ys

/-- Sort a list by `key` in descending order (models SQL `ORDER BY key DESC`). -/
def sortDesc (key : α → Nat) : List α → List α
  | [] => []
  | x :: xs => insertDesc key x (sortDesc key xs)

theorem perm_insertDesc (key : α → Nat) (x : α) (l : List α) :
    List.Perm (insertDesc key x l) (x :: l) := by
  induction l with
  | nil => rfl
  | cons y ys ih =>
      by_cases h : key x ≤ key y
      · simpa [insertDesc, h] using ((ih.cons y).trans (List.Perm.swap x y ys))
      · simp [insertDesc, h]

theorem perm_sortDesc (key : α → Nat) (l : List α) : List.Perm (sortDesc key l) l := by
  induction l with
  | nil => rfl
  | cons x xs ih => exact (perm_insertDesc key x (sortDesc key xs)).trans (ih.cons x)

theorem mem_insertDesc (key : α → Nat) (x a : α) (l : List α) :
    a ∈ insertDesc key x l ↔ a = x ∨ a ∈ l := by
  simpa using (perm_insertDesc key x l).mem_iff

theorem mem_sortDesc (key : α → Nat) (a : α) (l : List α) :
    a ∈ sortDesc key l ↔ a ∈ l :=
  (perm_sortDesc key l).mem_iff

theorem pairwise_insertDesc (key : α → Nat) (x : α) (l : List α)
    (h : l.Pairwise (fun a b => key b ≤ key a)) :
    (insertDesc key x l).Pairwise (fun a b => key b ≤ key a) := by
  induction l with
  | nil => simp [insertDesc]
  | cons y ys ih =>
      rcases List.pairwise_cons.mp h with ⟨hy, hys⟩
      by_cases hxy : key x ≤ key y
      · simp only [insertDesc, if_pos hxy]
        refine List.pairwise_cons.mpr ⟨?_, ih hys⟩
        intro a ha
        rcases (mem_insertDesc key x a ys).mp ha with rfl | ha
        · exact hxy
        · exact hy a ha
      · simp only [insertDesc, if_neg hxy]
        refine List.pairwise_cons.mpr ⟨?_, h⟩
        intro a ha
        rcases List.mem_cons.mp ha with rfl | ha
        · exact Nat.le_of_lt (Nat.lt_of_not_le hxy)
        · exact Nat.le_trans (hy a ha) (Nat.le_of_lt (Nat.lt_of_not_le hxy))

theorem pairwise_sortDesc (key : α → Nat) (l : List α) :
    (sortDesc key l).Pairwise (fun a b => key b ≤ key a) := by
  induction l with
  | nil => simp [sortDesc]
  | cons x xs ih => exact pairwise_insertDesc key x (sortDesc key xs) ih

/-! ### Friend relations (`FriendRelation`, `models.py` lines 150-175)

`from_user`/`to_user` are user ids; `status` is one of `'N'` (pending),
`'Y'` (confirmed), `'D'` (declined), defaulting to `'N'`; `created_at`
is an abstract timestamp.  The table has `unique_together
('from_user', 'to_user')`. -/

structure FriendRelation where
  from_user : Nat
  to_user : Nat
  status : Char
  created_at : Nat
deriving DecidableEq, Repr

/-- There is a relation row `a → b` in the table (any status). -/
def relExists (s : List FriendRelation) (a b : Nat) : Prop :=
  ∃ r ∈ s, r.from_user = a ∧ r.to_user = b

instance (s : List FriendRelation) (a b : Nat) : Decidable (relExists s a b) := by
  unfold relExists; infer_instance

/-- `FriendRelation.objects.get_or_create(from_user=a, to_user=b)`:
fetch the row if it exists, otherwise create it with the model defaults
(`status='N'`, `created_at` = now). -/
def get_or_create (s : List FriendRelation) (a b now : Nat) : List FriendRelation :=
  if relExists s a b then s else s ++ [⟨a, b, 'N', now⟩]

/-- `User.add_friend(self, friend, symm=True)` (`models.py` lines 80-87):
get-or-create the directed relation self→friend; if `symm`, recurse once
with `symm=False` to also get-or-create friend→self. -/
def add_friend (s : List FriendRelation) (selfU friend : Nat) (symm : Bool)
    (now : Nat) : List FriendRelation :=
  let s1 := get_or_create s selfU friend now
  if symm then get_or_create s1 friend selfU now else s1

/-- `User.remove_friend(self, friend, symm=True)` (`models.py` lines 89-95):
delete all rows self→friend; if `symm`, recurse once with `symm=False` to
also delete friend→self. -/
def remove_friend (s : List FriendRelation) (selfU friend : Nat)
    (symm : Bool) : List FriendRelation :=
  let s1 := s.filter (fun r => !(r.from_user == selfU && r.to_user == friend))
  if symm then s1.filter (fun r => !(r.from_user == friend && r.to_user == selfU)) else s1

/-- `FriendRelation.get_confirmed_friends(user)` (`models.py` lines 166-168):
the `to_user` of every relation from `user` with status `'Y'`. -/
def get_confirmed_friends (s : List FriendRelation) (u : Nat) : List Nat :=
  (s.filter (fun r => r.from_user == u && r.status == 'Y')).map (fun r => r.to_user)

/-- `FriendRelation.get_unconfirmed_friends(user)` (`models.py` lines 162-164):
the `to_user` of every relation from `user` with status `'N'`. -/
def get_unconfirmed_friends (s : List FriendRelation) (u : Nat) : List Nat :=
  (s.filter (fun r => r.from_user == u && r.status == 'N')).map (fun r => r.to_user)

/-- Modelled from the spec: the step by which a friend request "reaches
confirmed" sets the relation's `status` field; the endpoint performing
this transition is outside `src/` (only the `STATUS_CHOICES` schema and
`get_confirmed_friends` are in `models.py`). -/
def set_status (s : List FriendRelation) (a b : Nat) (st : Char) : List FriendRelation :=
  s.map (fun r => if r.from_user == a && r.to_user == b then
    { r with status := st } else r)

/-! ### Core friend-graph operations as a trace (`models.py` lines 80-95)

The only operations in `models.py` that write friend relations are
`add_friend` and `remove_friend`; a trace of such calls, run from the
empty table, describes every state reachable through the core alone. -/

inductive CoreOp where
  | add (a b now : Nat)
  | remove (a b : Nat)
deriving DecidableEq, Repr

def applyCoreOp (s : List FriendRelation) : CoreOp → List FriendRelation
  | .add a b now => add_friend s a b true now
  | .remove a b => remove_friend s a b true

def runCoreOps (ops : List CoreOp) : List FriendRelation :=
  ops.foldl applyCoreOp []

/-! ### User directory (`UserManager.create_user`, `models.py` lines 18-50)

The profile record of the `User` model, without the framework-managed
columns the core never reads.  `password` holds the stored credential;
dates are kept as strings (the code only ever tests them for emptiness
or feeds them to `get_category`). -/

structure User where
  username : String
  password : String
  email : String
  fullname : String
  birthday : String
  sex : String
  tagline : String
  photo : String
  is_staff : Bool
  is_active : Bool
  is_superuser : Bool
deriving DecidableEq, Repr

/-- Python truthiness of `kwargs.get(key)`: `None` (absent) and the
empty string are both falsy. -/
def falsyOpt (o : Option String) : Prop := o.getD "" = ""

instance (o : Option String) : Decidable (falsyOpt o) := by
  unfold falsyOpt; infer_instance

/-- Modelled from the spec: `User.set_password` is framework code
(Django's `AbstractBaseUser`), not under `src/`; the spec says the
password is "stored only as a salted hash".  Modelled as an
algorithm-tagged digest string, strictly longer than the plaintext. -/
def set_password (p : String) : String :=
  "pbkdf2_sha256$" ++ toString p.length ++ "$" ++ p

/-- Modelled from the spec: `BaseUserManager.normalize_email` is
framework code, not under `src/`, and the spec does not constrain it;
modelled as the identity on the address. -/
def normalize_email (email : String) : String := email

/-- `UserManager.create_user` (`models.py` lines 19-47): raise on a
missing or empty required field, otherwise build the user with
`is_active=True`, hash the password and persist. -/
def create_user (username password : String) (is_staff is_superuser : Bool)
    (email fullname birthday sex : Option String) : Except String User :=
  if username = "" then
    .error "Users must have a valid authentication name."
  else if falsyOpt email then
    .error "User must have a valid email."
  else if falsyOpt fullname then
    .error "User must have a valid full name."
  else if falsyOpt birthday then
    .error "User must have a valid birthday."
  else if falsyOpt sex then
    .error "User must have a valid sex."
  else
    .ok { username := username
          password := set_password password
          email := normalize_email (email.getD "")
          fullname := fullname.getD ""
          birthday := birthday.getD ""
          sex := sex.getD ""
          tagline := ""
          photo := ""
          is_staff := is_staff
          is_active := true
          is_superuser := is_superuser }

/-! ### Profile update (`UserSerializer.Meta.update`, `serializers.py` lines 18-35) -/

/-- The `validated_data` dictionary of the serializer: an absent key is
`none`.  The serializer's `CharField`s reject blank input, so a present
password value is in practice non-empty; the embedding keeps the code's
own truthiness test rather than assuming this. -/
structure ValidatedData where
  email : Option String
  fullname : Option String
  birthday : Option String
  sex : Option String
  tagline : Option String
  password : Option String
  confirm_password : Option String
deriving DecidableEq, Repr

/-- Python truthiness of `validated_data.get(key, None)`. -/
def truthyOpt (o : Option String) : Prop := o.getD "" ≠ ""

instance (o : Option String) : Decidable (truthyOpt o) := by
  unfold truthyOpt; infer_instance

/-- `UserSerializer.Meta.update(instance, validated_data)`
(`serializers.py` lines 18-35), embedded exactly as written: note that
the default for the `email` lookup on line 19 is `instance.username`,
not `instance.email`. -/
def serializer_update (inst : User) (vd : ValidatedData) : User :=
  let i1 : User :=
    { inst with
      email := vd.email.getD inst.username
      fullname := vd.fullname.getD inst.fullname
      birthday := vd.birthday.getD inst.birthday
      sex := vd.sex.getD inst.sex
      tagline := vd.tagline.getD inst.tagline }
  if truthyOpt vd.password ∧ truthyOpt vd.confirm_password ∧
      vd.password.getD "" = vd.confirm_password.getD "" then
    { i1 with password := set_password (vd.password.getD "") }
  else
    i1

/-! ### User rows for directory queries (`User.search_friend`, `models.py` lines 103-107)

The columns of the `users` table that the search query touches. -/

structure UserRow where
  id : Nat
  username : String
  fullname : String
deriving DecidableEq, Repr

/-- `query in s` on strings (the ORM's `__contains` lookup). -/
def strContains (s query : String) : Prop := List.IsInfix query.toList s.toList

instance (s query : String) : Decidable (strContains s query) := by
  unfold strContains; infer_instance

/-- `User.search_friend(self, query)` (`models.py` lines 103-107):
filter users whose username or fullname contains `query`, then exclude
rows with `id=self.id` or `friends__id=self.id` — the latter joins the
candidate's `friends` many-to-many (through rows with
`from_user=candidate`) and keeps candidates having `self` among their
friends. -/
def search_friend (users : List UserRow) (rels : List FriendRelation)
    (selfId : Nat) (query : String) : List UserRow :=
  (users.filter (fun u =>
    decide (strContains u.username query) || decide (strContains u.fullname query))).filter
    (fun u => !(u.id == selfId ||
      rels.any (fun r => r.from_user == u.id && r.to_user == selfId)))

/-! ### Book notes (`BookNote`, `models.py` lines 243-293)

The columns of the `booknotes` table that the feed query touches:
`user` is the author's id, `created_at` an abstract timestamp. -/

structure BookNote where
  id : Nat
  user : Nat
  book : Nat
  content : String
  share_to : Char
  created_at : Nat
deriving DecidableEq, Repr

/-- `User.get_user_and_friend_notes(self)` (`models.py` line 119):
`BookNote.objects.filter(Q(user=self) | Q(user__friends=self))`
(the author is the viewer, or the author's `friends` many-to-many —
through rows with `from_user=author` — contains the viewer, with no
condition on `status` or `share_to`), ordered by `-created_at`, sliced
to the first 10. -/
def get_user_and_friend_notes (notes : List BookNote)
    (rels : List FriendRelation) (selfId : Nat) : List BookNote :=
  (sortDesc (fun n => n.created_at)
    (notes.filter (fun n => n.user == selfId ||
      rels.any (fun r => r.from_user == n.user && r.to_user == selfId)))).take 10

/-! ### Book catalog (`Book`, `models.py` lines 191-233) -/

structure Book where
  id : Nat
  title : String
  category : String
  isbn : String
  barcode : String
  author : String
  isbn13 : String
  author_etc : String
  illustrator : String
  translator : String
  publisher : String
  pub_date : Option Nat
  description : String
  photo : String
  link : String
deriving DecidableEq, Repr

/-- Modelled from the spec: `get_category` lives in `bine/commons.py`,
which is not under `src/`; the spec says only that it derives a book
category from the user's birthday by age banding.  Modelled concretely:
the birth year is the leading digits of the birthday string and the age
(against a fixed reference year) is banded into three categories. -/
def get_category (birthday : String) : String :=
  let year := (birthday.toList.take 4).foldl (fun acc c => acc * 10 + (c.toNat - 48)) 0
  let age := if year ≤ 2015 then 2015 - year else 0
  if age < 8 then "child" else if age < 14 then "junior" else "general"

/-- Sort key for `order_by('-pub_date')`: a `NULL` date sorts below
every real date (MySQL places NULLs last in a descending order). -/
def pubDateKey (d : Option Nat) : Nat :=
  match d with
  | none => 0
  | some n => n + 1

/-- `Book.get_recommended_books(user)` (`models.py` lines 209-212):
books whose `category` equals `get_category(user.birthday)`, ordered by
`-pub_date`. -/
def get_recommended_books (books : List Book) (u : User) : List Book :=
  sortDesc (fun b => pubDateKey b.pub_date)
    (books.filter (fun b => b.category == get_category u.birthday))

/-- A JSON value, as far as `Book.to_json` needs one. -/
inductive JVal where
  | str : String → JVal
  | nat : Nat → JVal
  | date : Option Nat → JVal
deriving DecidableEq, Repr

/-- `Book.to_json(self)` (`models.py` lines 214-227), embedded exactly
as written: `Book.photo` is a `URLField`, so its value is a plain
string; when it is non-empty (truthy) the code evaluates
`self.photo.url`, and a Python string has no attribute `url`, so the
call raises `AttributeError`.  When `photo` is empty the dictionary of
the seven base fields is returned. -/
def Book.to_json (b : Book) : Except String (List (String × JVal)) :=
  if b.photo ≠ "" then
    .error "AttributeError: str object has no attribute url"
  else
    .ok [("id", .nat b.id),
         ("title", .str b.title),
         ("author", .str b.author),
         ("isbn", .str b.isbn),
         ("publisher", .str b.publisher),
         ("pub_date", .date b.pub_date),
         ("description", .str b.description)]

/-! ### Likes (`BookNoteLikeit`, `models.py` lines 296-306)

The `booknote_likeit` table with its `unique_together (user, note)`
constraint. -/

structure LikeRec where
  user : Nat
  note : Nat
  created_at : Nat
deriving DecidableEq, Repr

/-- The table's `unique_together (user, note)` invariant: no two rows
share the same user and note. -/
def likesUnique (s : List LikeRec) : Prop :=
  s.Pairwise (fun r1 r2 => ¬(r1.user = r2.user ∧ r1.note = r2.note))

/-- Number of like rows for the pair `(u, n)`. -/
def countLikes (s : List LikeRec) (u n : Nat) : Nat :=
  s.countP (fun r => r.user == u && r.note == n)

/-- Modelled from the spec: `like_note(user, note)` lives in the API
views, which are not under `src/` (only the `BookNoteLikeit` model and
its uniqueness constraint are in `models.py`); the spec describes it as
an idempotent insert into the like set in which a duplicate is rejected
by the uniqueness invariant rather than stored as a new row. -/
def like_note (s : List LikeRec) (u n now : Nat) : List LikeRec :=
  if s.any (fun r => r.user == u && r.note == n) then s
  else s ++ [⟨u, n, now⟩]

/-! ### Helper lemmas -/

theorem mem_get_or_create {r : FriendRelation} {s : List FriendRelation}
    {a b now : Nat} (h : r ∈ get_or_create s a b now) :
    r ∈ s ∨ r = ⟨a, b, 'N', now⟩ := by
  unfold get_or_create at h
  split at h
  · exact Or.inl h
  · simpa using h

theorem status_add_friend {s : List FriendRelation} {selfU friend : Nat}
    {symm : Bool} {now : Nat} (h : ∀ r ∈ s, r.status = 'N') :
    ∀ r ∈ add_friend s selfU friend symm now, r.status = 'N' := by
  intro r hr
  unfold add_friend at hr
  split at hr
  · rcases mem_get_or_create hr with hr1 | rfl
    · rcases mem_get_or_create hr1 with hr2 | rfl
      · exact h r hr2
      · rfl
    · rfl
  · rcases mem_get_or_create hr with hr1 | rfl
    · exact h r hr1
    · rfl

theorem status_remove_friend {s : List FriendRelation} {selfU friend : Nat}
    {symm : Bool} (h : ∀ r ∈ s, r.status = 'N') :
    ∀ r ∈ remove_friend s selfU friend symm, r.status = 'N' := by
  intro r hr
  unfold remove_friend at hr
  split at hr
  · exact h r (List.mem_of_mem_filter (List.mem_of_mem_filter hr))
  · exact h r (List.mem_of_mem_filter hr)

theorem status_foldl_core {ops : List CoreOp} :
    ∀ {s : List FriendRelation}, (∀ r ∈ s, r.status = 'N') →
      ∀ r ∈ ops.foldl applyCoreOp s, r.status = 'N' := by
  induction ops with
  | nil => intro s h; simpa using h
  | cons op ops ih =>
      intro s h
      rw [List.foldl_cons]
      refine ih ?_
      cases op with
      | add a b now => exact @status_add_friend s a b true now h
      | remove a b => exact @status_remove_friend s a b true h

theorem confirmed_eq_nil_of_statusN {s : List FriendRelation}
    (h : ∀ r ∈ s, r.status = 'N') (u : Nat) :
    get_confirmed_friends s u = [] := by
  unfold get_confirmed_friends
  rw [List.filter_eq_nil_iff.mpr, List.map_nil]
  intro r hr
  simp only [Bool.and_eq_true, beq_iff_eq, not_and]
  intro _
  rw [h r hr]
  decide

theorem relExists_append (s : List FriendRelation) (r : FriendRelation) (a b : Nat) :
    relExists (s ++ [r]) a b ↔ relExists s a b ∨ (r.from_user = a ∧ r.to_user = b) := by
  simp [relExists, List.mem_append, or_and_right, exists_or]

theorem map_setf_id {s : List FriendRelation} {a b : Nat} {st : Char}
    (h : ¬ relExists s a b) :
    s.map (fun r => if r.from_user == a && r.to_user == b then
      { r with status := st } else r) = s := by
  have hid : ∀ r ∈ s, (if r.from_user == a && r.to_user == b then
      { r with status := st } else r) = r := by
    intro r hr
    rw [if_neg]
    simp only [Bool.and_eq_true, beq_iff_eq, not_and]
    intro hf ht
    exact h ⟨r, hr, hf, ht⟩
  calc s.map _ = s.map id := List.map_congr_left hid
    _ = s := List.map_id s

theorem filter_pair_id {s : List FriendRelation} {a b : Nat}
    (h : ¬ relExists s a b) :
    s.filter (fun r => !(r.from_user == a && r.to_user == b)) = s := by
  rw [List.filter_eq_self.mpr]
  intro r hr
  simp only [Bool.not_eq_eq_eq_not, Bool.not_true, Bool.and_eq_false_iff, beq_eq_false_iff_ne]
  by_contra hc
  push_neg at hc
  exact h ⟨r, hr, hc.1, hc.2⟩

/-- Claim C10: every friend relation created by `add_friend` has status
`'N'`, and no core operation (`add_friend`/`remove_friend`) ever sets a
status to `'Y'`; hence in any state reachable from the empty table
through core operations alone, every relation still has status `'N'`
and `get_confirmed_friends` returns the empty list for every user. -/
theorem c10_core_never_confirms (ops : List CoreOp) (u : Nat) :
    (∀ r ∈ runCoreOps ops, r.status = 'N') ∧
    get_confirmed_friends (runCoreOps ops) u = [] := by
  have h : ∀ r ∈ runCoreOps ops, r.status = 'N' :=
    status_foldl_core (by intro r hr; simp at hr)
  exact ⟨h, confirmed_eq_nil_of_statusN h u⟩

/-- Claim C2: for all users `a` and `b` (with no prior relation in
either direction), `add_friend(a, b, symm=True)` creates the relation
in both directions; once the status of the relation `b → a` reaches
confirmed (`'Y'`), `get_confirmed_friends(b)` contains `a`; and a
subsequent `remove_friend(a, b, symm=True)` deletes both directed
relations, restoring the original table exactly, so
`get_confirmed_friends(b)` no longer contains `a`. -/
theorem c2_add_confirm_remove (s : List FriendRelation) (a b now : Nat)
    (h1 : ¬ relExists s a b) (h2 : ¬ relExists s b a) :
    relExists (add_friend s a b true now) a b ∧
    relExists (add_friend s a b true now) b a ∧
    a ∈ get_confirmed_friends (set_status (add_friend s a b true now) b a 'Y') b ∧
    remove_friend (set_status (add_friend s a b true now) b a 'Y') a b true = s ∧
    a ∉ get_confirmed_friends
      (remove_friend (set_status (add_friend s a b true now) b a 'Y') a b true) b := by
  have hgo1 : get_or_create s a b now = s ++ [⟨a, b, 'N', now⟩] := by
    simp [get_or_create, h1]
  have hnoconf : ∀ t : List FriendRelation, t = s →
      a ∉ get_confirmed_friends t b := by
    rintro t rfl hmem
    rcases List.mem_map.mp hmem with ⟨r, hr, hto⟩
    rcases List.mem_filter.mp hr with ⟨hrs, hp⟩
    simp only [Bool.and_eq_true, beq_iff_eq] at hp
    exact h2 ⟨r, hrs, hp.1, hto⟩
  by_cases hab : a = b
  · subst hab
    have hex : relExists (s ++ [⟨a, a, 'N', now⟩]) a a :=
      ⟨⟨a, a, 'N', now⟩, by simp, rfl, rfl⟩
    have hadd : add_friend s a a true now = s ++ [⟨a, a, 'N', now⟩] := by
      simp only [add_friend, hgo1, if_true]
      rw [get_or_create, if_pos hex]
    have hset : set_status (add_friend s a a true now) a a 'Y' =
        s ++ [⟨a, a, 'Y', now⟩] := by
      rw [hadd, set_status, List.map_append, map_setf_id h2]
      simp
    have hrem : remove_friend (set_status (add_friend s a a true now) a a 'Y')
        a a true = s := by
      rw [hset, remove_friend]
      simp only [if_true, List.filter_append]
      rw [filter_pair_id h1, filter_pair_id h2]
      simp
    refine ⟨?_, ?_, ?_, hrem, hnoconf _ hrem⟩
    · rw [hadd]; exact ⟨⟨a, a, 'N', now⟩, by simp, rfl, rfl⟩
    · rw [hadd]; exact ⟨⟨a, a, 'N', now⟩, by simp, rfl, rfl⟩
    · rw [hset]
      refine List.mem_map.mpr ⟨⟨a, a, 'Y', now⟩, List.mem_filter.mpr ⟨by simp, by simp⟩, rfl⟩
  · have hnex : ¬ relExists (s ++ [⟨a, b, 'N', now⟩]) b a := by
      intro hx
      rcases (relExists_append s _ b a).mp hx with hx | ⟨hf, ht⟩
      · exact h2 hx
      · exact hab hf
    have hadd : add_friend s a b true now =
        s ++ [⟨a, b, 'N', now⟩] ++ [⟨b, a, 'N', now⟩] := by
      simp only [add_friend, hgo1, if_true]
      rw [get_or_create, if_neg hnex]
    have hset : set_status (add_friend s a b true now) b a 'Y' =
        s ++ [⟨a, b, 'N', now⟩] ++ [⟨b, a, 'Y', now⟩] := by
      rw [hadd, set_status, List.map_append, List.map_append, map_setf_id h2]
      have : ¬ relExists [⟨a, b, 'N', now⟩] b a := by
        intro hx
        rcases hx with ⟨r, hr, hf, ht⟩
        simp at hr
        subst hr
        exact hab hf
      rw [map_setf_id this]
      simp
    have hrem : remove_friend (set_status (add_friend s a b true now) b a 'Y')
        a b true = s := by
      rw [hset, remove_friend]
      simp only [if_true, List.filter_append]
      rw [filter_pair_id h1, filter_pair_id h2]
      simp [hab, Ne.symm hab]
    refine ⟨?_, ?_, ?_, hrem, hnoconf _ hrem⟩
    · rw [hadd]; exact ⟨⟨a, b, 'N', now⟩, by simp, rfl, rfl⟩
    · rw [hadd]; exact ⟨⟨b, a, 'N', now⟩, by simp, rfl, rfl⟩
    · rw [hset]
      refine List.mem_map.mpr ⟨⟨b, a, 'Y', now⟩, List.mem_filter.mpr ⟨by simp, by simp⟩, rfl⟩

/-- Witness for C2 at a concrete input: users 0 and 1 on the empty
table, with timestamp 5. -/
theorem c2_add_confirm_remove_witness :
    relExists (add_friend [] 0 1 true 5) 0 1 ∧
    relExists (add_friend [] 0 1 true 5) 1 0 ∧
    0 ∈ get_confirmed_friends (set_status (add_friend [] 0 1 true 5) 1 0 'Y') 1 ∧
    remove_friend (set_status (add_friend [] 0 1 true 5) 1 0 'Y') 0 1 true = [] ∧
    0 ∉ get_confirmed_friends
      (remove_friend (set_status (add_friend [] 0 1 true 5) 1 0 'Y') 0 1 true) 1 :=
  c2_add_confirm_remove [] 0 1 5 (by decide) (by decide)

theorem countLikes_eq_one {s : List LikeRec} {u n : Nat}
    (hu : likesUnique s) (hmem : ∃ r ∈ s, r.user = u ∧ r.note = n) :
    countLikes s u n = 1 := by
  induction s with
  | nil => simp at hmem
  | cons r t ih =>
      rcases List.pairwise_cons.mp hu with ⟨hr, ht⟩
      by_cases hm : r.user = u ∧ r.note = n
      · have hz : t.countP (fun x => x.user == u && x.note == n) = 0 := by
          rw [List.countP_eq_zero]
          intro x hx
          simp only [Bool.and_eq_true, beq_iff_eq, not_and]
          intro hxu hxn
          exact hr x hx ⟨hm.1.trans hxu.symm, hm.2.trans hxn.symm⟩
        simp only [countLikes, List.countP_cons]
        rw [hz]
        simp [hm.1, hm.2]
      · have hmem2 : ∃ x ∈ t, x.user = u ∧ x.note = n := by
          rcases hmem with ⟨x, hx, hxp⟩
          rcases List.mem_cons.mp hx with rfl | hx
          · exact absurd hxp hm
          · exact ⟨x, hx, hxp⟩
        have hc : ¬(r.user == u && r.note == n) = true := by
          simp only [Bool.and_eq_true, beq_iff_eq]
          exact hm
        have hcount := ih ht hmem2
        simp only [countLikes, List.countP_cons] at hcount ⊢
        simp [hc] at hcount ⊢
        omega

/-- Claim C4: `like_note` is idempotent.  Starting from any like table
satisfying the `unique_together (user, note)` invariant, liking a note
inserts at most one row: the table afterwards holds exactly one like
record for the pair, a second identical like leaves the table unchanged
(the duplicate is rejected by the uniqueness test, not stored as a new
row), and the uniqueness invariant is preserved. -/
theorem c4_like_note_idempotent (s : List LikeRec) (u n now now2 : Nat)
    (hu : likesUnique s) :
    like_note (like_note s u n now) u n now2 = like_note s u n now ∧
    countLikes (like_note s u n now) u n = 1 ∧
    likesUnique (like_note s u n now) := by
  by_cases hp : s.any (fun r => r.user == u && r.note == n) = true
  · have hs : like_note s u n now = s := by simp [like_note, hp]
    have hmem : ∃ r ∈ s, r.user = u ∧ r.note = n := by
      simpa [Bool.and_eq_true, beq_iff_eq] using List.any_eq_true.mp hp
    refine ⟨?_, ?_, ?_⟩
    · rw [hs]; simp [like_note, hp]
    · rw [hs]; exact countLikes_eq_one hu hmem
    · rw [hs]; exact hu
  · have hs : like_note s u n now = s ++ [⟨u, n, now⟩] := by simp [like_note, hp]
    have hnone : ∀ r ∈ s, ¬(r.user = u ∧ r.note = n) := by
      intro r hr hc
      exact hp (List.any_eq_true.mpr ⟨r, hr, by simp [hc.1, hc.2]⟩)
    refine ⟨?_, ?_, ?_⟩
    · have hp2 : (s ++ [(⟨u, n, now⟩ : LikeRec)]).any
          (fun r => r.user == u && r.note == n) = true :=
        List.any_eq_true.mpr ⟨⟨u, n, now⟩, by simp, by simp⟩
      rw [hs]
      simp [like_note, hp2]
    · have h0 : s.countP (fun r => r.user == u && r.note == n) = 0 := by
        rw [List.countP_eq_zero]
        intro r hr
        simp only [Bool.and_eq_true, beq_iff_eq]
        exact hnone r hr
      rw [hs]
      simp only [countLikes, List.countP_append]
      rw [h0]
      simp
    · rw [hs]
      unfold likesUnique
      rw [List.pairwise_append]
      refine ⟨hu, by simp, ?_⟩
      intro x hx y hy
      simp only [List.mem_singleton] at hy
      subst hy
      intro hc
      exact hnone x hx ⟨hc.1, hc.2⟩

/-- Witness for C4 at a concrete input: a table holding one like by
user 7 on note 9, then user 7 likes note 9 twice more. -/
theorem c4_like_note_idempotent_witness :
    like_note (like_note [⟨7, 9, 1⟩] 7 9 2) 7 9 3 = like_note [⟨7, 9, 1⟩] 7 9 2 ∧
    countLikes (like_note [⟨7, 9, 1⟩] 7 9 2) 7 9 = 1 ∧
    likesUnique (like_note [⟨7, 9, 1⟩] 7 9 2) :=
  c4_like_note_idempotent [⟨7, 9, 1⟩] 7 9 2 3 (by simp [likesUnique])

theorem set_password_ne (p : String) : set_password p ≠ p := by
  intro h
  have hlen := congrArg String.length h
  simp only [set_password, String.length_append] at hlen
  have h14 : ("pbkdf2_sha256$" : String).length = 14 := by decide
  have hd : ("$" : String).length = 1 := by decide
  rw [h14, hd] at hlen
  omega

/-- Claim C3: `create_user` fails whenever a required field (username,
email, fullname, birthday, sex) is missing or empty, and on success it
returns a user that is active and whose stored credential is the
password hash, never the plaintext password. -/
theorem c3_create_user (username password : String) (is_staff is_superuser : Bool)
    (email fullname birthday sex : Option String) :
    ((username = "" ∨ falsyOpt email ∨ falsyOpt fullname ∨ falsyOpt birthday ∨
        falsyOpt sex) →
      ∃ msg, create_user username password is_staff is_superuser
        email fullname birthday sex = .error msg) ∧
    ((username ≠ "" ∧ ¬falsyOpt email ∧ ¬falsyOpt fullname ∧ ¬falsyOpt birthday ∧
        ¬falsyOpt sex) →
      ∃ u, create_user username password is_staff is_superuser
          email fullname birthday sex = .ok u ∧
        u.password = set_password password ∧ u.password ≠ password ∧
        u.is_active = true) := by
  constructor
  · intro h
    unfold create_user
    repeat' split
    all_goals first
      | exact ⟨_, rfl⟩
      | (exfalso; tauto)
  · rintro ⟨h1, h2, h3, h4, h5⟩
    refine ⟨{ username := username, password := set_password password,
              email := normalize_email (email.getD ""), fullname := fullname.getD "",
              birthday := birthday.getD "", sex := sex.getD "", tagline := "",
              photo := "", is_staff := is_staff, is_active := true,
              is_superuser := is_superuser },
        ?_, rfl, set_password_ne password, rfl⟩
    simp [create_user, h1, h2, h3, h4, h5]

/-- Witness for C3 at concrete inputs: an empty username fails, and a
fully supplied signup succeeds with a hashed credential and
`is_active=true`. -/
theorem c3_create_user_witness :
    (∃ msg, create_user "" "pw" false false (some "ann@example.com") (some "Ann")
      (some "1990-01-01") (some "F") = .error msg) ∧
    (∃ u, create_user "ann" "pw" false false (some "ann@example.com") (some "Ann")
        (some "1990-01-01") (some "F") = .ok u ∧
      u.password = set_password "pw" ∧ u.password ≠ "pw" ∧ u.is_active = true) :=
  ⟨(c3_create_user "" "pw" false false (some "ann@example.com") (some "Ann")
      (some "1990-01-01") (some "F")).1 (Or.inl rfl),
   (c3_create_user "ann" "pw" false false (some "ann@example.com") (some "Ann")
      (some "1990-01-01") (some "F")).2
     ⟨by decide, by decide, by decide, by decide, by decide⟩⟩


/-- Claim C5: the serializer update re-hashes and stores a new
credential if and only if both a new (non-blank) password and a
matching confirmation are supplied in `validated_data`; in every other
case — confirmation absent, mismatched, or no password — the password
fields are silently ignored and the stored credential is unchanged (no
error is raised: the function is total). -/
theorem c5_password_update (inst : User) (vd : ValidatedData) :
    (∀ p, vd.password = some p → p ≠ "" → vd.confirm_password = some p →
      (serializer_update inst vd).password = set_password p) ∧
    ((¬∃ p, vd.password = some p ∧ p ≠ "" ∧ vd.confirm_password = some p) →
      (serializer_update inst vd).password = inst.password) := by
  constructor
  · intro p hp hne hc
    have hcond : truthyOpt vd.password ∧ truthyOpt vd.confirm_password ∧
        vd.password.getD "" = vd.confirm_password.getD "" := by
      refine ⟨?_, ?_, ?_⟩ <;> simp [truthyOpt, hp, hc, hne]
    simp only [serializer_update]
    rw [if_pos hcond]
    simp [hp]
  · intro hnex
    have hcond : ¬(truthyOpt vd.password ∧ truthyOpt vd.confirm_password ∧
        vd.password.getD "" = vd.confirm_password.getD "") := by
      rintro ⟨ht1, ht2, heq⟩
      apply hnex
      cases hv : vd.password with
      | none => rw [hv] at ht1; simp [truthyOpt] at ht1
      | some p =>
          cases hcv : vd.confirm_password with
          | none => rw [hcv] at ht2; simp [truthyOpt] at ht2
          | some c =>
              rw [hv] at ht1
              rw [hv, hcv] at heq
              simp only [truthyOpt, Option.getD_some] at ht1 heq
              exact ⟨p, rfl, ht1, congrArg some heq.symm⟩
    simp only [serializer_update]
    rw [if_neg hcond]

/-- Witness for C5 at concrete inputs: a matching pair re-hashes, a
missing confirmation leaves the old credential in place. -/
theorem c5_password_update_witness :
    (serializer_update
      ⟨"bob", "oldhash", "bob@example.com", "Bob", "1990-01-01", "M", "", "",
        false, true, false⟩
      ⟨none, none, none, none, none, some "newpw", some "newpw"⟩).password =
      set_password "newpw" ∧
    (serializer_update
      ⟨"bob", "oldhash", "bob@example.com", "Bob", "1990-01-01", "M", "", "",
        false, true, false⟩
      ⟨none, none, none, none, none, some "newpw", none⟩).password = "oldhash" :=
  ⟨(c5_password_update
      ⟨"bob", "oldhash", "bob@example.com", "Bob", "1990-01-01", "M", "", "",
        false, true, false⟩
      ⟨none, none, none, none, none, some "newpw", some "newpw"⟩).1
      "newpw" rfl (by decide) rfl,
   (c5_password_update
      ⟨"bob", "oldhash", "bob@example.com", "Bob", "1990-01-01", "M", "", "",
        false, true, false⟩
      ⟨none, none, none, none, none, some "newpw", none⟩).2
      (by rintro ⟨p, -, -, hc⟩; exact Option.noConfusion hc)⟩

/-- Claim C6 fails at this input: line 19 of `serializers.py` reads
`validated_data.get('email', instance.username)`, so an update that
omits the email field overwrites the stored email with the username
instead of leaving it unchanged.  Every other field (fullname,
birthday, sex, tagline) keeps its prior value when omitted. -/
theorem c6_email_overwritten_bug :
    (serializer_update
      ⟨"bob", "h", "bob@example.com", "Bob", "1990-01-01", "M", "tag", "",
        false, true, false⟩
      ⟨none, none, none, none, none, none, none⟩).email = "bob" ∧
    (serializer_update
      ⟨"bob", "h", "bob@example.com", "Bob", "1990-01-01", "M", "tag", "",
        false, true, false⟩
      ⟨none, none, none, none, none, none, none⟩).fullname = "Bob" ∧
    (serializer_update
      ⟨"bob", "h", "bob@example.com", "Bob", "1990-01-01", "M", "tag", "",
        false, true, false⟩
      ⟨none, none, none, none, none, none, none⟩).tagline = "tag" := by
  refine ⟨?_, ?_, ?_⟩ <;> rfl

/-- Claim C7 fails whenever `photo` is non-empty: `Book.photo` is a
`URLField`, so `self.photo` is a plain string and `self.photo.url`
raises `AttributeError`; with an empty `photo` the mapping of the seven
base fields is returned. -/
theorem c7_book_to_json_raises :
    Book.to_json
      ⟨1, "T", "cat", "1234567890", "bc", "Auth", "1234567890123", "", "", "",
        "Pub", some 100, "Desc", "http://example.com/cover.jpg", ""⟩ =
      .error "AttributeError: str object has no attribute url" ∧
    Book.to_json
      ⟨1, "T", "cat", "1234567890", "bc", "Auth", "1234567890123", "", "", "",
        "Pub", some 100, "Desc", "", ""⟩ =
      .ok [("id", JVal.nat 1), ("title", JVal.str "T"), ("author", JVal.str "Auth"),
           ("isbn", JVal.str "1234567890"), ("publisher", JVal.str "Pub"),
           ("pub_date", JVal.date (some 100)), ("description", JVal.str "Desc")] :=
  ⟨rfl, rfl⟩


/-- Claim C1 fails as stated at this input: viewer 0 has no confirmed
friends (the only relation, author 1 → viewer 0, is pending `'N'`), yet
the feed returns author 1's note, because the query joins the author's
`friends` rows toward the viewer without any condition on `status`. -/
theorem c1_counterexample :
    (⟨0, 1, 0, "", 'F', 5⟩ : BookNote) ∈
      get_user_and_friend_notes [⟨0, 1, 0, "", 'F', 5⟩] [⟨1, 0, 'N', 3⟩] 0 ∧
    (⟨0, 1, 0, "", 'F', 5⟩ : BookNote).user ≠ 0 ∧
    (⟨0, 1, 0, "", 'F', 5⟩ : BookNote).user ∉
      get_confirmed_friends [⟨1, 0, 'N', 3⟩] 0 := by
  decide

/-- Claim C1 (amended): for every viewer the feed returns at most 10
notes, ordered newest first by creation time, and every returned note
is stored and is authored either by the viewer or by a user having a
friend relation of any status directed to the viewer (the viewer is
among the author's friends) — not necessarily a confirmed friend. -/
theorem c1_feed_amended (notes : List BookNote) (rels : List FriendRelation)
    (viewer : Nat) :
    (get_user_and_friend_notes notes rels viewer).length ≤ 10 ∧
    (get_user_and_friend_notes notes rels viewer).Pairwise
      (fun m n => n.created_at ≤ m.created_at) ∧
    ∀ n ∈ get_user_and_friend_notes notes rels viewer,
      n ∈ notes ∧ (n.user = viewer ∨
        ∃ r ∈ rels, r.from_user = n.user ∧ r.to_user = viewer) := by
  unfold get_user_and_friend_notes
  refine ⟨?_, ?_, ?_⟩
  · rw [List.length_take]
    exact min_le_left _ _
  · exact List.Pairwise.sublist (List.take_sublist _ _) (pairwise_sortDesc _ _)
  · intro n hn
    have hn2 := (List.take_sublist 10 _).subset hn
    have hn3 := (mem_sortDesc _ n _).mp hn2
    have hf := List.mem_filter.mp hn3
    refine ⟨hf.1, ?_⟩
    have hb := hf.2
    simp only [Bool.or_eq_true, beq_iff_eq, List.any_eq_true, Bool.and_eq_true] at hb
    exact hb

/-- Claim C8 fails as stated at this input: user 1 is an existing
friend of the searching user 0 (the relation 0 → 1 is in the table),
matches the query, and is nevertheless returned, because the query
excludes on `friends__id=self.id` — relations FROM the candidate TO the
searcher — not on the searcher's own outgoing relations. -/
theorem c8_counterexample :
    relExists [⟨0, 1, 'N', 2⟩] 0 1 ∧
    (⟨1, "ann", "Ann Lee"⟩ : UserRow) ∈
      search_friend [⟨1, "ann", "Ann Lee"⟩] [⟨0, 1, 'N', 2⟩] 0 "ann" := by
  decide

/-- Claim C8 (amended): `search_friend` returns exactly the users whose
username or fullname contains the query as a substring, excluding the
searching user itself and excluding the users who have a friend
relation directed at the searching user (those counting the searcher
among their friends), rather than the searcher's own friends. -/
theorem c8_search_amended (users : List UserRow) (rels : List FriendRelation)
    (selfId : Nat) (query : String) :
    ∀ u, u ∈ search_friend users rels selfId query ↔
      u ∈ users ∧ (strContains u.username query ∨ strContains u.fullname query) ∧
      u.id ≠ selfId ∧ ∀ r ∈ rels, ¬(r.from_user = u.id ∧ r.to_user = selfId) := by
  intro u
  unfold search_friend
  rw [List.mem_filter, List.mem_filter]
  simp only [Bool.or_eq_true, decide_eq_true_eq, Bool.not_eq_true', Bool.or_eq_false_iff,
    beq_eq_false_iff_ne, List.any_eq_false, Bool.and_eq_true, beq_iff_eq, not_and, and_assoc]

/-- Claim C9: `get_recommended_books` returns exactly the books whose
category equals the category derived from the user's birthday, ordered
by publication date descending (a missing date sorting last). -/
theorem c9_recommended_books (books : List Book) (u : User) :
    List.Perm (get_recommended_books books u)
      (books.filter (fun b => b.category == get_category u.birthday)) ∧
    (∀ b, b ∈ get_recommended_books books u ↔
      b ∈ books ∧ b.category = get_category u.birthday) ∧
    (get_recommended_books books u).Pairwise
      (fun b1 b2 => pubDateKey b2.pub_date ≤ pubDateKey b1.pub_date) := by
  unfold get_recommended_books
  refine ⟨perm_sortDesc _ _, ?_, pairwise_sortDesc _ _⟩
  intro b
  rw [mem_sortDesc, List.mem_filter]
  simp [beq_iff_eq]


/-- Witness for the amended C1 at a concrete input: one note by the
viewer, empty relation table. -/
theorem c1_feed_amended_witness :
    (get_user_and_friend_notes [⟨0, 0, 0, "", 'F', 7⟩] [] 0).length ≤ 10 ∧
    ((⟨0, 0, 0, "", 'F', 7⟩ : BookNote) ∈ [(⟨0, 0, 0, "", 'F', 7⟩ : BookNote)] ∧
      ((⟨0, 0, 0, "", 'F', 7⟩ : BookNote).user = 0 ∨
        ∃ r ∈ ([] : List FriendRelation),
          r.from_user = (⟨0, 0, 0, "", 'F', 7⟩ : BookNote).user ∧ r.to_user = 0)) :=
  ⟨(c1_feed_amended [⟨0, 0, 0, "", 'F', 7⟩] [] 0).1,
   (c1_feed_amended [⟨0, 0, 0, "", 'F', 7⟩] [] 0).2.2
     ⟨0, 0, 0, "", 'F', 7⟩ (by decide)⟩

/-- Witness for the amended C8 at a concrete input: user 2 matches the
query, is not the searcher and has no relation to the searcher. -/
theorem c8_search_amended_witness :
    (⟨2, "bob", "Bob"⟩ : UserRow) ∈
      search_friend [⟨2, "bob", "Bob"⟩] [] 0 "bo" :=
  (c8_search_amended [⟨2, "bob", "Bob"⟩] [] 0 "bo" ⟨2, "bob", "Bob"⟩).mpr
    ⟨by decide, by decide, by decide, by decide⟩

/-- Witness for C9 at a concrete input: a book in the "general"
category recommended to a user born in 1990. -/
theorem c9_recommended_books_witness :
    (⟨1, "T", "general", "", "", "A", "1234567890123", "", "", "", "P",
        some 5, "", "", ""⟩ : Book) ∈
      get_recommended_books
        [⟨1, "T", "general", "", "", "A", "1234567890123", "", "", "", "P",
          some 5, "", "", ""⟩]
        ⟨"ann", "h", "a@x.com", "Ann", "1990-01-01", "F", "", "",
          false, true, false⟩ :=
  ((c9_recommended_books
      [⟨1, "T", "general", "", "", "A", "1234567890123", "", "", "", "P",
        some 5, "", "", ""⟩]
      ⟨"ann", "h", "a@x.com", "Ann", "1990-01-01", "F", "", "",
        false, true, false⟩).2.1
    ⟨1, "T", "general", "", "", "A", "1234567890123", "", "", "", "P",
      some 5, "", "", ""⟩).mpr ⟨by decide, by decide⟩

/-- Witness for C10 at a concrete input: the trace consisting of one
symmetric add of users 0 and 1. -/
theorem c10_core_never_confirms_witness :
    (⟨0, 1, 'N', 5⟩ : FriendRelation).status = 'N' ∧
    get_confirmed_friends (runCoreOps [CoreOp.add 0 1 5]) 1 = [] :=
  ⟨(c10_core_never_confirms [CoreOp.add 0 1 5] 1).1 ⟨0, 1, 'N', 5⟩ (by decide),
   (c10_core_never_confirms [CoreOp.add 0 1 5] 1).2⟩

end Bine
